import Mathlib

/-!
# Verification of the telly `models/lineup.go` subsystem

A shallow embedding of `src/models/lineup.go` (package `models` of
xiaodoudou/telly): the `SQLLineup` data model, the `DiscoveryData`
transform with its UPNP document, and the `LineupDB` store operations
(`InsertLineup`, `DeleteLineup`, `UpdateLineup`, `GetLineupByID`,
`GetEnabledLineups`).

The SQL layer is modelled as a list of persisted rows.  Each store
operation's query is a string literal in the source, so each operation is
embedded directly as the state transformation that statement performs
against the `lineup` table, including the sqlx calling conventions the
source relies on (`Get` scans the first result row and returns an
`ErrNoRows` error, leaving the destination zero-valued, when the
statement yields no rows; `Select` appends every result row in storage
order).  The Channel store collaborator is embedded as a function field
`GetChannelsForLineup`, matching the capability the source consumes
through `db.Collection.LineupChannel`.
-/

namespace Telly

/-- Instants of `time.Time` are modelled abstractly as naturals. -/
abbrev TimeInstant := Nat

/-- A Channel entity owned by the separate Channel store; its internals are
out of scope here (the source only stores the values it is handed), so it
is modelled as an opaque tag. -/
structure LineupChannel where
  tag : Nat
  deriving DecidableEq, Repr

/-- `DiscoveryData` from lineup.go: data about telly to expose in the
HDHomeRun format for Plex detection. -/
structure DiscoveryData where
  FriendlyName    : String
  Manufacturer    : String
  ModelName       : String
  ModelNumber     : String
  FirmwareName    : String
  TunerCount      : Int
  FirmwareVersion : String
  DeviceID        : String
  DeviceAuth      : String
  BaseURL         : String
  LineupURL       : String
  DeviceUUID      : String
  deriving DecidableEq, Repr

/-- `upnp.SpecVersion` of the goupnp dependency (fields used by the source). -/
structure UpnpSpecVersion where
  Major : Int
  Minor : Int
  deriving DecidableEq, Repr

/-- `upnp.URLField` of the goupnp dependency (field used by the source). -/
structure UpnpURLField where
  Str : String
  deriving DecidableEq, Repr

/-- `upnp.Device` of the goupnp dependency (fields used by the source). -/
structure UpnpDevice where
  DeviceType       : String
  FriendlyName     : String
  Manufacturer     : String
  ModelName        : String
  ModelNumber      : String
  ModelDescription : String
  SerialNumber     : String
  UDN              : String
  PresentationURL  : UpnpURLField
  deriving DecidableEq, Repr

/-- `upnp.RootDevice` of the goupnp dependency (fields used by the source). -/
structure UpnpRootDevice where
  SpecVersion : UpnpSpecVersion
  URLBaseStr  : String
  Device      : UpnpDevice
  deriving DecidableEq, Repr

/-- `(d *DiscoveryData) UPNP()`: the UPNP representation of the
DiscoveryData.  `fmt.Sprintf "%s %s"` is string concatenation with a
single space between the operands. -/
def DiscoveryData.UPNP (d : DiscoveryData) : UpnpRootDevice :=
  { SpecVersion := { Major := 1, Minor := 0 }
    URLBaseStr := d.BaseURL
    Device :=
      { DeviceType := "urn:schemas-upnp-org:device:MediaServer:1"
        FriendlyName := d.FriendlyName
        Manufacturer := d.Manufacturer
        ModelName := d.ModelName
        ModelNumber := d.ModelNumber
        ModelDescription := d.ModelNumber ++ " " ++ d.ModelName
        SerialNumber := d.DeviceID
        UDN := d.DeviceUUID
        PresentationURL := { Str := "/" } } }

/-- `SQLLineup` from lineup.go.  `CreatedAt` is a nullable timestamp
(`*time.Time`); `Channels` is the hydrated channel collection, not a
persisted column. -/
structure SQLLineup where
  ID               : Int
  Name             : String
  SSDP             : Bool
  ListenAddress    : String
  DiscoveryAddress : String
  Port             : Int
  Tuners           : Int
  Manufacturer     : String
  ModelName        : String
  ModelNumber      : String
  FirmwareName     : String
  FirmwareVersion  : String
  DeviceID         : String
  DeviceAuth       : String
  DeviceUUID       : String
  CreatedAt        : Option TimeInstant
  Channels         : List LineupChannel
  deriving DecidableEq, Repr

/-- The Go zero value of `SQLLineup` (`var lineup SQLLineup`): numeric
fields 0, strings empty, booleans false, pointer and slice nil. -/
def SQLLineup.zero : SQLLineup :=
  { ID := 0, Name := "", SSDP := false, ListenAddress := ""
    DiscoveryAddress := "", Port := 0, Tuners := 0, Manufacturer := ""
    ModelName := "", ModelNumber := "", FirmwareName := ""
    FirmwareVersion := "", DeviceID := "", DeviceAuth := ""
    DeviceUUID := "", CreatedAt := none, Channels := [] }

/-- `(s *SQLLineup) GetDiscoveryData()`.  The embedding threads the
pointer receiver explicitly: the second component is the receiver state
when the method returns (the body only reads fields, so it is returned
as received).  The `fmt.Sprintf` format `http://%s:%d` is concatenation
with the decimal rendering of the port. -/
def SQLLineup.GetDiscoveryData (s : SQLLineup) : DiscoveryData × SQLLineup :=
  let baseAddr := "http://" ++ s.DiscoveryAddress ++ ":" ++ toString s.Port
  ({ FriendlyName := s.Name
     Manufacturer := s.Manufacturer
     ModelName := s.ModelName
     ModelNumber := s.ModelNumber
     FirmwareName := s.FirmwareName
     TunerCount := s.Tuners
     FirmwareVersion := s.FirmwareVersion
     DeviceID := s.DeviceID
     DeviceAuth := s.DeviceAuth
     BaseURL := baseAddr
     LineupURL := baseAddr ++ "/lineup.json"
     DeviceUUID := s.DeviceUUID }, s)

/-- Errors surfaced by the modelled SQL layer. -/
inductive DBError where
  /-- `sql.ErrNoRows`: the statement handed to `Get` produced no rows. -/
  | errNoRows : DBError
  /-- A statement failed to prepare because it names a column absent from
  the schema (e.g. SQLite "no such column"). -/
  | noSuchColumn (column : String) : DBError
  /-- A failure reported by the Channel store collaborator while hydrating
  channels. -/
  | channelLookupFailed (tag : Nat) : DBError
  deriving DecidableEq, Repr

/-- One persisted row of the `lineup` table: exactly the columns of the
schema (the column list of `baseLineupQuery` and of the INSERT statement;
`created_at` is nullable). -/
structure LineupRow where
  id                : Int
  name              : String
  ssdp              : Bool
  listen_address    : String
  discovery_address : String
  port              : Int
  tuners            : Int
  manufacturer      : String
  model_name        : String
  model_number      : String
  firmware_name     : String
  firmware_version  : String
  device_id         : String
  device_auth       : String
  device_uuid       : String
  created_at        : Option TimeInstant
  deriving DecidableEq, Repr

/-- The column names of the `lineup` table (from `baseLineupQuery`, the
INSERT column list and the `db:` tags of `SQLLineup`). -/
def lineupColumns : List String :=
  ["id", "name", "ssdp", "listen_address", "discovery_address", "port",
   "tuners", "manufacturer", "model_name", "model_number", "firmware_name",
   "firmware_version", "device_id", "device_auth", "device_uuid",
   "created_at"]

/-- Scanning a result row of `baseLineupQuery` (or `SELECT *`) into an
`SQLLineup` destination: every column maps to its tagged field; the
untagged `Channels` field is left at its zero value. -/
def LineupRow.scan (r : LineupRow) : SQLLineup :=
  { ID := r.id, Name := r.name, SSDP := r.ssdp
    ListenAddress := r.listen_address
    DiscoveryAddress := r.discovery_address, Port := r.port
    Tuners := r.tuners, Manufacturer := r.manufacturer
    ModelName := r.model_name, ModelNumber := r.model_number
    FirmwareName := r.firmware_name, FirmwareVersion := r.firmware_version
    DeviceID := r.device_id, DeviceAuth := r.device_auth
    DeviceUUID := r.device_uuid, CreatedAt := r.created_at
    Channels := [] }

/-- The collaborator capability consumed from the Channel store:
`GetChannelsForLineup(lineupID, activeOnly)`. -/
structure LineupChannelAPI where
  GetChannelsForLineup : Int → Bool → Except DBError (List LineupChannel)

/-- `APICollection`: the composition root, of which lineup.go uses only
the `LineupChannel` sibling store. -/
structure APICollection where
  LineupChannel : LineupChannelAPI

/-- `LineupDB`: the SQL connection (modelled as the `lineup` table's rows
in storage order, the autoincrement counter and the clock used for the
`created_at` column default) together with the `APICollection`. -/
structure LineupDB where
  rows       : List LineupRow
  nextId     : Int
  now        : TimeInstant
  Collection : APICollection

/-- `db.SQL.Get(&lineup, baseLineupQuery ++ " WHERE L.id = $1", id)`:
scan the first row matching the id into a fresh zero-valued destination;
with no matching row the destination stays zero and `sql.ErrNoRows` is
returned. -/
def LineupDB.getRow (db : LineupDB) (id : Int) : SQLLineup × Option DBError :=
  match db.rows.find? (fun r => r.id == id) with
  | some r => (r.scan, none)
  | none => (SQLLineup.zero, some DBError.errNoRows)

/-- The row written by `InsertLineup`'s INSERT statement: the 14
caller-supplied columns (neither `id` nor `created_at` is in the
statement's column list, so `id` is the fresh autoincrement value and
`created_at` takes the schema's insert-time default.  Modelled from the
spec for that default: "created_at (nullable timestamp, set at insert)" —
the migration defining it is not part of this file's source). -/
def LineupDB.insertRow (db : LineupDB) (lineupStruct : SQLLineup) : LineupRow :=
  { id := db.nextId, name := lineupStruct.Name, ssdp := lineupStruct.SSDP
    listen_address := lineupStruct.ListenAddress
    discovery_address := lineupStruct.DiscoveryAddress
    port := lineupStruct.Port, tuners := lineupStruct.Tuners
    manufacturer := lineupStruct.Manufacturer
    model_name := lineupStruct.ModelName
    model_number := lineupStruct.ModelNumber
    firmware_name := lineupStruct.FirmwareName
    firmware_version := lineupStruct.FirmwareVersion
    device_id := lineupStruct.DeviceID
    device_auth := lineupStruct.DeviceAuth
    device_uuid := lineupStruct.DeviceUUID
    created_at := some db.now }

/-- `(db *LineupDB) InsertLineup(lineupStruct)`: the INSERT statement
writes `db.insertRow lineupStruct`; the row id is then read back with
`LastInsertId` and the persisted record re-read with
`SELECT * FROM lineup WHERE id = $1`. -/
def LineupDB.InsertLineup (db : LineupDB) (lineupStruct : SQLLineup) :
    LineupDB × (SQLLineup × Option DBError) :=
  let db' : LineupDB :=
    { db with rows := db.rows ++ [db.insertRow lineupStruct]
              nextId := db.nextId + 1 }
  (db', db'.getRow db.nextId)

/-- `(db *LineupDB) GetLineupByID(id, withChannels)`.  The second
component of the result is the trace of invocations of the Channel
collaborator, as `(lineupID, activeOnly)` pairs, in call order.  The
first component models the Go `(*SQLLineup, error)` pair: `none` is a
nil pointer. -/
def LineupDB.GetLineupByID (db : LineupDB) (id : Int) (withChannels : Bool) :
    (Option SQLLineup × Option DBError) × List (Int × Bool) :=
  let lineup := (db.getRow id).1
  let err := (db.getRow id).2
  if withChannels then
    match db.Collection.LineupChannel.GetChannelsForLineup lineup.ID true with
    | Except.error channelsErr => ((none, some channelsErr), [(lineup.ID, true)])
    | Except.ok channels =>
        ((some { lineup with Channels := channels }, err), [(lineup.ID, true)])
  else
    ((some lineup, err), [])

/-- `(db *LineupDB) DeleteLineup(lineupID)`: `db.SQL.Get` executes the
statement `DELETE FROM lineup WHERE id = $1`, which removes every
matching row but produces no result rows, so the scan always fails with
`sql.ErrNoRows` and the destination stays zero-valued. -/
def LineupDB.DeleteLineup (db : LineupDB) (lineupID : Int) :
    LineupDB × (SQLLineup × Option DBError) :=
  let db' : LineupDB :=
    { db with rows := db.rows.filter (fun r => !(r.id == lineupID)) }
  (db', (SQLLineup.zero, some DBError.errNoRows))

/-- `(db *LineupDB) UpdateLineup(lineupID, description)`: the statement
`UPDATE lineup SET description = $2 WHERE id = $1 RETURNING *` names the
column `description`, which is not among `lineupColumns`, so it fails to
prepare ("no such column"): no row changes and the destination stays
zero-valued.  (The guard keeps the schema dependence explicit; see
`description_not_a_lineup_column`.) -/
def LineupDB.UpdateLineup (db : LineupDB) (lineupID : Int)
    (description : String) : LineupDB × (SQLLineup × Option DBError) :=
  if "description" ∈ lineupColumns then
    (db, db.getRow lineupID)
  else
    (db, (SQLLineup.zero, some (DBError.noSuchColumn "description")))

/-- The hydration loop of `GetEnabledLineups`: hydrate each lineup's
channels in order (`GetChannelsForLineup(lineup.ID, true)`), writing the
result back; the first collaborator failure aborts the loop with that
error. -/
def hydrateLineups (collab : Int → Bool → Except DBError (List LineupChannel)) :
    List SQLLineup → Except DBError (List SQLLineup)
  | [] => Except.ok []
  | lineup :: rest =>
    match collab lineup.ID true with
    | Except.error channelsErr => Except.error channelsErr
    | Except.ok channels =>
      match hydrateLineups collab rest with
      | Except.error e => Except.error e
      | Except.ok rest' => Except.ok ({ lineup with Channels := channels } :: rest')

/-- `(db *LineupDB) GetEnabledLineups(withChannels)`: `db.SQL.Select`
runs `baseLineupQuery` — which has no WHERE clause — so every row of the
table is scanned in storage order; with `withChannels` the hydration loop
runs, and a collaborator failure returns `(nil, channelsErr)` (modelled
as `none`). -/
def LineupDB.GetEnabledLineups (db : LineupDB) (withChannels : Bool) :
    Option (List SQLLineup) × Option DBError :=
  let lineups := db.rows.map LineupRow.scan
  if withChannels then
    match hydrateLineups db.Collection.LineupChannel.GetChannelsForLineup lineups with
    | Except.error channelsErr => (none, some channelsErr)
    | Except.ok lineups' => (some lineups', none)
  else
    (some lineups, none)

/-! ## Concrete fixtures for evaluations and witnesses -/

/-- A sample persisted row (its SSDP flag is false). -/
def sampleRow : LineupRow :=
  { id := 1, name := "a", ssdp := false, listen_address := "127.0.0.1"
    discovery_address := "10.0.0.5", port := 6077, tuners := 2
    manufacturer := "Silicondust", model_name := "HDHomeRun EXTEND"
    model_number := "HDTC-2US", firmware_name := "hdhomeruntc_atsc"
    firmware_version := "20150826", device_id := "12345678"
    device_auth := "telly123", device_uuid := "2f70c0d7"
    created_at := some 3 }

/-- A Channel collaborator whose lookups always succeed with no channels. -/
def okCollab : LineupChannelAPI := ⟨fun _ _ => Except.ok []⟩

/-- A Channel collaborator whose lookups always fail. -/
def failCollab : LineupChannelAPI :=
  ⟨fun _ _ => Except.error (DBError.channelLookupFailed 7)⟩

/-- A store holding exactly `sampleRow`, with a succeeding collaborator. -/
def sampleDB : LineupDB :=
  { rows := [sampleRow], nextId := 2, now := 5, Collection := ⟨okCollab⟩ }

/-- A store holding exactly `sampleRow`, with a failing collaborator. -/
def failDB : LineupDB :=
  { rows := [sampleRow], nextId := 2, now := 5, Collection := ⟨failCollab⟩ }

/-- An empty store with a succeeding collaborator. -/
def emptyDB : LineupDB :=
  { rows := [], nextId := 1, now := 0, Collection := ⟨okCollab⟩ }

/-! ## Helper lemmas -/

/-- The `lineup` table schema has no `description` column, so the UPDATE
statement of `UpdateLineup` can never prepare. -/
theorem description_not_a_lineup_column : "description" ∉ lineupColumns := by
  decide

/-- Looking up a freshly appended row by its id finds exactly that row
when no earlier row carries the same id. -/
theorem find_append_fresh (rows : List LineupRow) (nr : LineupRow)
    (h : ∀ r ∈ rows, r.id ≠ nr.id) :
    (rows ++ [nr]).find? (fun r => r.id == nr.id) = some nr := by
  induction rows with
  | nil => simp
  | cons a as ih =>
    have ha : (a.id == nr.id) = false := by
      simpa using h a (List.mem_cons_self a as)
    simp only [List.cons_append, List.find?, ha]
    exact ih (fun r hr => h r (List.mem_cons_of_mem a hr))

/-- `getRow` on a successful `find?` scans the found row. -/
theorem getRow_eq (db : LineupDB) (id : Int) (r : LineupRow)
    (h : db.rows.find? (fun x => x.id == id) = some r) :
    db.getRow id = (r.scan, none) := by
  unfold LineupDB.getRow
  rw [h]

/-- If some lineup in the list has a failing channel lookup, the
hydration loop returns the collaborator error of one of the lineups in
the list. -/
theorem hydrateLineups_error_of_exists
    (collab : Int → Bool → Except DBError (List LineupChannel)) :
    ∀ ls : List SQLLineup,
      (∃ l ∈ ls, ∃ e : DBError, collab l.ID true = Except.error e) →
      ∃ e' : DBError, (∃ l ∈ ls, collab l.ID true = Except.error e') ∧
        hydrateLineups collab ls = Except.error e'
  | [], h => by simp at h
  | a :: as, h => by
    cases hc : collab a.ID true with
    | error e =>
        exact ⟨e, ⟨a, List.mem_cons_self a as, hc⟩, by simp [hydrateLineups, hc]⟩
    | ok cs =>
        obtain ⟨l, hl, e, hle⟩ := h
        rcases List.mem_cons.mp hl with rfl | h1
        · rw [hc] at hle
          simp at hle
        · obtain ⟨e', ⟨l', hl', hcl'⟩, he'⟩ :=
            hydrateLineups_error_of_exists collab as ⟨l, h1, e, hle⟩
          exact ⟨e', ⟨l', List.mem_cons_of_mem a hl', hcl'⟩,
            by simp [hydrateLineups, hc, he']⟩

/-! ## Claims -/

/-- C7: for every Lineup, the derived DiscoveryDescriptor has baseURL
equal to "http://" ++ discoveryAddress ++ ":" ++ port and lineupURL equal
to baseURL ++ "/lineup.json"; in particular discoveryAddress "10.0.0.5"
with port 6077 yields baseURL "http://10.0.0.5:6077" and lineupURL
"http://10.0.0.5:6077/lineup.json". -/
theorem C7_discovery_urls :
    (∀ s : SQLLineup,
      s.GetDiscoveryData.1.BaseURL =
        "http://" ++ s.DiscoveryAddress ++ ":" ++ toString s.Port ∧
      s.GetDiscoveryData.1.LineupURL =
        s.GetDiscoveryData.1.BaseURL ++ "/lineup.json") ∧
    sampleRow.discovery_address = "10.0.0.5" ∧ sampleRow.port = 6077 ∧
    sampleRow.scan.GetDiscoveryData.1.BaseURL = "http://10.0.0.5:6077" ∧
    sampleRow.scan.GetDiscoveryData.1.LineupURL =
      "http://10.0.0.5:6077/lineup.json" :=
  ⟨fun _ => ⟨rfl, rfl⟩, rfl, rfl, by decide, by decide⟩

/-- C8: the discovery document built from any DiscoveryDescriptor has
spec-version major 1 / minor 0, the constant device-type, a
model-description that is modelNumber ++ " " ++ modelName, presentation
URL "/", serialNumber = deviceID, UDN = deviceUUID, and the remaining
device fields plus the URL base copied verbatim from the descriptor; the
mapping `UPNP` is a total function with no error cases. -/
theorem C8_upnp_document (d : DiscoveryData) :
    d.UPNP.SpecVersion.Major = 1 ∧ d.UPNP.SpecVersion.Minor = 0 ∧
    d.UPNP.Device.DeviceType = "urn:schemas-upnp-org:device:MediaServer:1" ∧
    d.UPNP.Device.ModelDescription = d.ModelNumber ++ " " ++ d.ModelName ∧
    d.UPNP.Device.PresentationURL.Str = "/" ∧
    d.UPNP.Device.SerialNumber = d.DeviceID ∧
    d.UPNP.Device.UDN = d.DeviceUUID ∧
    d.UPNP.Device.FriendlyName = d.FriendlyName ∧
    d.UPNP.Device.Manufacturer = d.Manufacturer ∧
    d.UPNP.Device.ModelName = d.ModelName ∧
    d.UPNP.Device.ModelNumber = d.ModelNumber ∧
    d.UPNP.URLBaseStr = d.BaseURL :=
  ⟨rfl, rfl, rfl, rfl, rfl, rfl, rfl, rfl, rfl, rfl, rfl, rfl⟩

/-- C9: deriving a DiscoveryDescriptor returns the receiver Lineup
unchanged (the embedding threads the pointer receiver explicitly), and a
repeated derivation from the resulting Lineup yields an identical
descriptor. -/
theorem C9_get_discovery_data_is_pure (s : SQLLineup) :
    s.GetDiscoveryData.2 = s ∧
    s.GetDiscoveryData.2.GetDiscoveryData.1 = s.GetDiscoveryData.1 :=
  ⟨rfl, rfl⟩

/-- C1 fails on the code: `GetEnabledLineups` runs `baseLineupQuery`
with no filter on the `ssdp` column, so a store holding exactly one
lineup whose SSDP flag is false returns that lineup. -/
theorem C1_disabled_lineup_returned :
    sampleRow.ssdp = false ∧
    sampleDB.GetEnabledLineups false = (some [sampleRow.scan], none) ∧
    sampleRow.scan.SSDP = false :=
  ⟨rfl, rfl, rfl⟩

/-- C2 fails on the code: on a store holding lineup id 1,
`UpdateLineup 1 "x"` errors (the statement names the nonexistent column
`description`), changes nothing, and returns a zero-value record rather
than the post-update state. -/
theorem C2_update_names_missing_column :
    sampleDB.UpdateLineup 1 "x" =
      (sampleDB, SQLLineup.zero, some (DBError.noSuchColumn "description")) ∧
    SQLLineup.zero ≠ { sampleRow.scan with Name := "x" } := by
  refine ⟨rfl, by decide⟩

/-- C3 fails on the code: on a store holding lineup id 1,
`DeleteLineup 1` does remove the row, but it returns the zero-value
record together with an ErrNoRows error (a DELETE statement yields no
rows for `Get` to scan) instead of the pre-removal record without
error. -/
theorem C3_delete_returns_error_not_record :
    (sampleDB.DeleteLineup 1).1.rows = [] ∧
    (sampleDB.DeleteLineup 1).2 = (SQLLineup.zero, some DBError.errNoRows) ∧
    SQLLineup.zero ≠ sampleRow.scan := by
  refine ⟨rfl, rfl, by decide⟩

/-- C4: when the autoincrement id is fresh, a successful insert returns
the record re-read from storage: no error, the assigned id, a non-null
createdAt stamped at insert time, every caller-supplied field persisted
verbatim, and fetching by the returned id yields exactly the returned
record. -/
theorem C4_insert_roundtrip (db : LineupDB) (l : SQLLineup)
    (hfresh : ∀ r ∈ db.rows, r.id ≠ db.nextId) :
    (db.InsertLineup l).2.2 = none ∧
    (db.InsertLineup l).2.1.ID = db.nextId ∧
    (db.InsertLineup l).2.1.CreatedAt = some db.now ∧
    (db.InsertLineup l).2.1.Name = l.Name ∧
    (db.InsertLineup l).2.1.SSDP = l.SSDP ∧
    (db.InsertLineup l).2.1.ListenAddress = l.ListenAddress ∧
    (db.InsertLineup l).2.1.DiscoveryAddress = l.DiscoveryAddress ∧
    (db.InsertLineup l).2.1.Port = l.Port ∧
    (db.InsertLineup l).2.1.Tuners = l.Tuners ∧
    (db.InsertLineup l).2.1.Manufacturer = l.Manufacturer ∧
    (db.InsertLineup l).2.1.ModelName = l.ModelName ∧
    (db.InsertLineup l).2.1.ModelNumber = l.ModelNumber ∧
    (db.InsertLineup l).2.1.FirmwareName = l.FirmwareName ∧
    (db.InsertLineup l).2.1.FirmwareVersion = l.FirmwareVersion ∧
    (db.InsertLineup l).2.1.DeviceID = l.DeviceID ∧
    (db.InsertLineup l).2.1.DeviceAuth = l.DeviceAuth ∧
    (db.InsertLineup l).2.1.DeviceUUID = l.DeviceUUID ∧
    ((db.InsertLineup l).1.GetLineupByID (db.InsertLineup l).2.1.ID false).1
      = (some (db.InsertLineup l).2.1, none) := by
  have hfind : (db.rows ++ [db.insertRow l]).find?
      (fun x => x.id == db.nextId) = some (db.insertRow l) :=
    find_append_fresh db.rows (db.insertRow l) hfresh
  have hrow : (db.InsertLineup l).1.getRow db.nextId
      = ((db.insertRow l).scan, none) :=
    getRow_eq (db.InsertLineup l).1 db.nextId (db.insertRow l) hfind
  have h2 : (db.InsertLineup l).2 = ((db.insertRow l).scan, none) := hrow
  refine ⟨?_, ?_, ?_, ?_, ?_, ?_, ?_, ?_, ?_, ?_, ?_, ?_, ?_, ?_, ?_, ?_, ?_, ?_⟩
  case _ => rw [h2]; try rfl
  case _ => rw [h2]; try rfl
  case _ => rw [h2]; try rfl
  case _ => rw [h2]; try rfl
  case _ => rw [h2]; try rfl
  case _ => rw [h2]; try rfl
  case _ => rw [h2]; try rfl
  case _ => rw [h2]; try rfl
  case _ => rw [h2]; try rfl
  case _ => rw [h2]; try rfl
  case _ => rw [h2]; try rfl
  case _ => rw [h2]; try rfl
  case _ => rw [h2]; try rfl
  case _ => rw [h2]; try rfl
  case _ => rw [h2]; try rfl
  case _ => rw [h2]; try rfl
  case _ => rw [h2]; try rfl
  case _ =>
    rw [h2]
    show ((db.InsertLineup l).1.GetLineupByID db.nextId false).1
        = (some (db.insertRow l).scan, none)
    calc ((db.InsertLineup l).1.GetLineupByID db.nextId false).1
        = (some ((db.InsertLineup l).1.getRow db.nextId).1,
           ((db.InsertLineup l).1.getRow db.nextId).2) := rfl
      _ = (some (db.insertRow l).scan, none) := by rw [hrow]

/-- C4 witness: the theorem applied to `sampleDB` (one row, id 1, next
autoincrement id 2) and the caller input `sampleRow.scan`. -/
theorem C4_insert_roundtrip_witness :
    (∀ r ∈ sampleDB.rows, r.id ≠ sampleDB.nextId) ∧
    ((sampleDB.InsertLineup sampleRow.scan).2.2 = none ∧
     (sampleDB.InsertLineup sampleRow.scan).2.1.ID = sampleDB.nextId ∧
     (sampleDB.InsertLineup sampleRow.scan).2.1.CreatedAt = some sampleDB.now ∧
     (sampleDB.InsertLineup sampleRow.scan).2.1.Name = sampleRow.scan.Name ∧
     (sampleDB.InsertLineup sampleRow.scan).2.1.SSDP = sampleRow.scan.SSDP ∧
     (sampleDB.InsertLineup sampleRow.scan).2.1.ListenAddress
       = sampleRow.scan.ListenAddress ∧
     (sampleDB.InsertLineup sampleRow.scan).2.1.DiscoveryAddress
       = sampleRow.scan.DiscoveryAddress ∧
     (sampleDB.InsertLineup sampleRow.scan).2.1.Port = sampleRow.scan.Port ∧
     (sampleDB.InsertLineup sampleRow.scan).2.1.Tuners = sampleRow.scan.Tuners ∧
     (sampleDB.InsertLineup sampleRow.scan).2.1.Manufacturer
       = sampleRow.scan.Manufacturer ∧
     (sampleDB.InsertLineup sampleRow.scan).2.1.ModelName
       = sampleRow.scan.ModelName ∧
     (sampleDB.InsertLineup sampleRow.scan).2.1.ModelNumber
       = sampleRow.scan.ModelNumber ∧
     (sampleDB.InsertLineup sampleRow.scan).2.1.FirmwareName
       = sampleRow.scan.FirmwareName ∧
     (sampleDB.InsertLineup sampleRow.scan).2.1.FirmwareVersion
       = sampleRow.scan.FirmwareVersion ∧
     (sampleDB.InsertLineup sampleRow.scan).2.1.DeviceID
       = sampleRow.scan.DeviceID ∧
     (sampleDB.InsertLineup sampleRow.scan).2.1.DeviceAuth
       = sampleRow.scan.DeviceAuth ∧
     (sampleDB.InsertLineup sampleRow.scan).2.1.DeviceUUID
       = sampleRow.scan.DeviceUUID ∧
     ((sampleDB.InsertLineup sampleRow.scan).1.GetLineupByID
         (sampleDB.InsertLineup sampleRow.scan).2.1.ID false).1
       = (some (sampleDB.InsertLineup sampleRow.scan).2.1, none)) :=
  ⟨by decide, C4_insert_roundtrip sampleDB sampleRow.scan (by decide)⟩

/-- C5: a failing channel-hydration lookup makes the whole call fail
with that error: `GetLineupByID` with channels returns a nil record and
the collaborator's error, and when any stored row's hydration lookup
fails, `GetEnabledLineups` with channels returns a nil list together
with a collaborator error of one of the rows — never a
partially-hydrated result. -/
theorem C5_hydration_failure_aborts (db : LineupDB) :
    (∀ (id : Int) (e : DBError),
      db.Collection.LineupChannel.GetChannelsForLineup (db.getRow id).1.ID true
          = Except.error e →
        db.GetLineupByID id true
          = ((none, some e), [((db.getRow id).1.ID, true)])) ∧
    ((∃ r ∈ db.rows, ∃ e : DBError,
        db.Collection.LineupChannel.GetChannelsForLineup r.id true
          = Except.error e) →
      ∃ e' : DBError,
        (∃ r ∈ db.rows,
          db.Collection.LineupChannel.GetChannelsForLineup r.id true
            = Except.error e') ∧
        db.GetEnabledLineups true = (none, some e')) := by
  constructor
  · intro id e he
    simp [LineupDB.GetLineupByID, he]
  · intro hex
    obtain ⟨r, hr, e, he⟩ := hex
    obtain ⟨e', ⟨l', hl', hcl'⟩, hhyd⟩ :=
      hydrateLineups_error_of_exists
        db.Collection.LineupChannel.GetChannelsForLineup
        (db.rows.map LineupRow.scan)
        ⟨r.scan, List.mem_map_of_mem LineupRow.scan hr, e, he⟩
    obtain ⟨r', hr', rfl⟩ := List.mem_map.mp hl'
    exact ⟨e', ⟨r', hr', hcl'⟩, by simp [LineupDB.GetEnabledLineups, hhyd]⟩

/-- C5 witness: the theorem applied to `failDB`, whose collaborator
fails every lookup, at id 1. -/
theorem C5_hydration_failure_aborts_witness :
    failDB.GetLineupByID 1 true
      = ((none, some (DBError.channelLookupFailed 7)), [(1, true)]) ∧
    ∃ e' : DBError,
      (∃ r ∈ failDB.rows,
        failDB.Collection.LineupChannel.GetChannelsForLineup r.id true
          = Except.error e') ∧
      failDB.GetEnabledLineups true = (none, some e') :=
  ⟨(C5_hydration_failure_aborts failDB).1 1 (DBError.channelLookupFailed 7) rfl,
   (C5_hydration_failure_aborts failDB).2
     ⟨sampleRow, List.mem_cons_self _ _, DBError.channelLookupFailed 7, rfl⟩⟩

/-- C6: `GetLineupByID` with withChannels=false makes no collaborator
call (empty trace); with withChannels=true it always makes exactly one
call, for the looked-up lineup's id with activeOnly=true, and when that
call succeeds the returned record's channel collection is exactly the
returned sequence. -/
theorem C6_hydration_flag (db : LineupDB) (id : Int) :
    (db.GetLineupByID id false).2 = [] ∧
    (db.GetLineupByID id true).2 = [((db.getRow id).1.ID, true)] ∧
    ∀ cs : List LineupChannel,
      db.Collection.LineupChannel.GetChannelsForLineup (db.getRow id).1.ID true
          = Except.ok cs →
        (db.GetLineupByID id true).1.1
          = some { (db.getRow id).1 with Channels := cs } := by
  refine ⟨rfl, ?_, ?_⟩
  · cases hc : db.Collection.LineupChannel.GetChannelsForLineup
        (db.getRow id).1.ID true with
    | error e => simp [LineupDB.GetLineupByID, hc]
    | ok cs => simp [LineupDB.GetLineupByID, hc]
  · intro cs hc
    simp [LineupDB.GetLineupByID, hc]

/-- C6 witness: the theorem applied to `sampleDB` at id 1, whose
collaborator succeeds with the empty channel list. -/
theorem C6_hydration_flag_witness :
    (sampleDB.GetLineupByID 1 false).2 = [] ∧
    (sampleDB.GetLineupByID 1 true).2 = [(1, true)] ∧
    (sampleDB.GetLineupByID 1 true).1.1
      = some { sampleRow.scan with Channels := [] } :=
  ⟨(C6_hydration_flag sampleDB 1).1,
   (C6_hydration_flag sampleDB 1).2.1,
   (C6_hydration_flag sampleDB 1).2.2 [] rfl⟩

/-- C10: when the primary row lookup matches nothing and withChannels is
true, `GetLineupByID` still calls the collaborator with the zero-value
lineup id 0; a collaborator failure replaces the lookup error, and a
collaborator success yields a non-nil zero-value record (carrying the
returned channels) together with the original ErrNoRows error. -/
theorem C10_lookup_miss_still_hydrates (db : LineupDB) (id : Int)
    (hmiss : db.rows.find? (fun r => r.id == id) = none) :
    (db.GetLineupByID id true).2 = [(0, true)] ∧
    (∀ e : DBError,
      db.Collection.LineupChannel.GetChannelsForLineup 0 true
          = Except.error e →
        (db.GetLineupByID id true).1 = (none, some e)) ∧
    (∀ cs : List LineupChannel,
      db.Collection.LineupChannel.GetChannelsForLineup 0 true
          = Except.ok cs →
        (db.GetLineupByID id true).1
          = (some { SQLLineup.zero with Channels := cs },
             some DBError.errNoRows)) := by
  have hrow : db.getRow id = (SQLLineup.zero, some DBError.errNoRows) := by
    simp [LineupDB.getRow, hmiss]
  have hzid : SQLLineup.zero.ID = 0 := rfl
  refine ⟨?_, ?_, ?_⟩
  · cases hc : db.Collection.LineupChannel.GetChannelsForLineup 0 true with
    | error e => simp [LineupDB.GetLineupByID, hrow, hzid, hc]
    | ok cs => simp [LineupDB.GetLineupByID, hrow, hzid, hc]
  · intro e hc
    simp [LineupDB.GetLineupByID, hrow, hzid, hc]
  · intro cs hc
    simp [LineupDB.GetLineupByID, hrow, hzid, hc]

/-- C10 witness: the theorem applied to the empty store at id 1, whose
collaborator succeeds with the empty channel list. -/
theorem C10_lookup_miss_still_hydrates_witness :
    emptyDB.rows.find? (fun r => r.id == 1) = none ∧
    (emptyDB.GetLineupByID 1 true).2 = [(0, true)] ∧
    (emptyDB.GetLineupByID 1 true).1
      = (some { SQLLineup.zero with Channels := ([] : List LineupChannel) },
         some DBError.errNoRows) :=
  ⟨rfl, (C10_lookup_miss_still_hydrates emptyDB 1 rfl).1,
   (C10_lookup_miss_still_hydrates emptyDB 1 rfl).2.2 [] rfl⟩

end Telly
